import Mathlib

/-
Verification development for the assessment-recommendation backend
(FastAPI + Supabase + Gemini RAG pipeline).

Shallow embedding of the Python sources:
  backend/utils/data_parser.py        (parse_duration_text)
  backend/services/supabase_service.py (match_assessments, _get_mock_matches)
  backend/services/gemini_service.py   (mock fallbacks)
  backend/services/rag_pipeline.py     (RAGPipeline.process_query)
  backend/routers/recommendations.py   (get_recommendations, rerank_recommendations)
  backend/main.py                      (standard_recommend, the /recommend endpoint)
  backend/models/recommendation.py     (request and response models)
  backend/core/config.py               (settings)

Scores are modelled with Rat (the Python floats involved are small decimal
constants compared against decimal thresholds, far from representation
boundaries).  Wall-clock readings are explicit parameters.  External
collaborators (the pgvector RPC, the live LLM, the seeded PRNG inside the
mock fallbacks) enter as explicit inputs or function parameters.
-/

/-! Configuration constants, from backend/core/config.py lines 39-45. -/

def MIN_SIMILARITY_THRESHOLD : Rat := mkRat 6 10

def RETRIEVAL_MULTIPLIER : Nat := 3

def DEFAULT_TOP_K : Nat := 5

def ALWAYS_USE_LLM_RERANKING : Bool := false

/-! ## Duration parser, from backend/utils/data_parser.py (parse_duration_text)

The regular-expression searches of the source are embedded as direct
character-list scanners.  For the three patterns involved
(digits-sep-digits-unit, digits-fraction-unit, plain digit runs) maximal
munch on digit runs coincides with the regex engine, because no pattern can
continue with a digit after a digit run is given back.
-/

structure DurationFields where
  duration_min_minutes : Option Nat
  duration_max_minutes : Option Nat
  is_untimed : Bool
  is_variable_duration : Bool
  deriving DecidableEq

/-- ASCII lower-casing, modelling the Python str.lower calls. -/
def strLower (s : String) : String := String.mk (s.data.map Char.toLower)

/-- Does the pattern p occur at the head of l.  Models an anchored regex or
str.startswith test. -/
def leadsWith : List Char → List Char → Bool
  | [], _ => true
  | _ :: _, [] => false
  | a :: as, b :: bs => a == b && leadsWith as bs

/-- Substring containment, modelling Python re.search on a literal word. -/
def hasSub (p : List Char) : List Char → Bool
  | [] => leadsWith p []
  | c :: cs => leadsWith p (c :: cs) || hasSub p cs

/-- Maximal digit run at the head of the list, with the remainder. -/
def takeDigits : List Char → List Char × List Char
  | [] => ([], [])
  | c :: cs =>
    if c.isDigit then
      let p := takeDigits cs
      (c :: p.1, p.2)
    else ([], c :: cs)

/-- Whitespace skipping, modelling the regex class backslash-s star. -/
def dropWS : List Char → List Char
  | [] => []
  | c :: cs => if c.isWhitespace then dropWS cs else c :: cs

/-- Digit characters to the number they denote, modelling int() on a digit
run extracted by the regex. -/
def charsToNat (l : List Char) : Nat :=
  l.foldl (fun n c => n * 10 + (c.toNat - 48)) 0

/-- All maximal digit runs of the text, modelling re.findall of a digit-run
pattern. -/
def digitRunsAux : List Char → List Char → List (List Char)
  | [], cur => if cur.isEmpty then [] else [cur.reverse]
  | c :: cs, cur =>
    if c.isDigit then digitRunsAux cs (c :: cur)
    else if cur.isEmpty then digitRunsAux cs []
    else cur.reverse :: digitRunsAux cs []

def digitRuns (l : List Char) : List (List Char) := digitRunsAux l []

def hasDigit (s : String) : Bool := s.data.any Char.isDigit

/-- The unit alternation of the source regexes, in source order
min|minute|minutes|hr|hour|hours.  Returns whether the captured group
satisfies startswith hr: only the hr alternative does, since min shadows
minute and minutes, and hour (which does not start with hr) shadows hours. -/
def unitAt (l : List Char) : Option Bool :=
  if leadsWith "min".data l then some false
  else if leadsWith "hr".data l then some true
  else if leadsWith "hour".data l then some false
  else none

/-- Attempt to match digits, separator (- or to), digits, unit at this
position; the range pattern of data_parser.py line 52. -/
def rangeMatchAt (l : List Char) : Option (Nat × Nat × Bool) :=
  match takeDigits l with
  | ([], _) => none
  | (d1, r1) =>
    let r1 := dropWS r1
    let sepRest :=
      if leadsWith "-".data r1 then some (r1.drop 1)
      else if leadsWith "to".data r1 then some (r1.drop 2)
      else none
    match sepRest with
    | none => none
    | some r2 =>
      let r2 := dropWS r2
      match takeDigits r2 with
      | ([], _) => none
      | (d2, r3) =>
        match unitAt (dropWS r3) with
        | some isHr => some (charsToNat d1, charsToNat d2, isHr)
        | none => none

/-- Leftmost search for the range pattern, as re.search does. -/
def searchRange : List Char → Option (Nat × Nat × Bool)
  | [] => none
  | c :: cs =>
    match rangeMatchAt (c :: cs) with
    | some r => some r
    | none => searchRange cs

/-- Attempt to match digits, optional fraction, unit at this position; the
single-value pattern of data_parser.py line 71.  The value is converted as
the source does: scale by 60 only when the captured unit starts with hr,
then truncate to an integer. -/
def singleMatchAt (l : List Char) : Option Nat :=
  match takeDigits l with
  | ([], _) => none
  | (d1, r1) =>
    let fracRest :=
      match r1 with
      | '.' :: rest =>
        match takeDigits rest with
        | ([], _) => (([] : List Char), r1)
        | (d2, r2) => (d2, r2)
      | _ => (([] : List Char), r1)
    match unitAt (dropWS fracRest.2) with
    | some isHr =>
      -- int(val) on the non-negative decimal d1.frac, scaled by 60 when the
      -- unit starts with hr: floor((d1 * 10^k + frac) * scale / 10^k).
      let k := fracRest.1.length
      let num := charsToNat d1 * 10 ^ k + charsToNat fracRest.1
      let num := if isHr then num * 60 else num
      some (num / 10 ^ k)
    | none => none

/-- Leftmost search for the single-value pattern. -/
def searchSingle : List Char → Option Nat
  | [] => none
  | c :: cs =>
    match singleMatchAt (c :: cs) with
    | some r => some r
    | none => searchSingle cs

/-- parse_duration_text, data_parser.py lines 11-111, branch for branch. -/
def parse_duration_text (duration_text : String) : DurationFields :=
  let lower := strLower duration_text
  if duration_text = "" ∨ lower = "" ∨ lower = "na" ∨ lower = "n/a" ∨ lower = "unknown" then
    ⟨none, none, false, false⟩
  else if hasSub "untimed".data lower.data || hasSub "no time limit".data lower.data then
    ⟨none, none, true, false⟩
  else if (hasSub "varies".data lower.data || hasSub "variable".data lower.data)
      && !(hasDigit duration_text) then
    ⟨none, none, false, true⟩
  else
    match searchRange lower.data with
    | some (mn, mx, isHr) =>
      ⟨some (if isHr then mn * 60 else mn), some (if isHr then mx * 60 else mx), false, true⟩
    | none =>
      match searchSingle lower.data with
      | some minutes => ⟨some minutes, some minutes, false, false⟩
      | none =>
        if hasDigit duration_text then
          match digitRuns duration_text.data with
          | [] => ⟨none, none, false, true⟩
          | d :: _ =>
            let m := charsToNat d
            let m := if hasSub "hour".data lower.data then m * 60 else m
            ⟨some m, some m, false, false⟩
        else ⟨none, none, false, true⟩

example : parse_duration_text "max 20" = ⟨some 20, some 20, false, false⟩ := by decide
example : parse_duration_text "15 to 35" = ⟨some 15, some 15, false, false⟩ := by decide
example : parse_duration_text "Untimed" = ⟨none, none, true, false⟩ := by decide
example : parse_duration_text "TBC" = ⟨none, none, false, true⟩ := by decide
example : parse_duration_text "42" = ⟨some 42, some 42, false, false⟩ := by decide
example : parse_duration_text "30 minutes" = ⟨some 30, some 30, false, false⟩ := by decide
example : parse_duration_text "15-25 minutes" = ⟨some 15, some 25, false, true⟩ := by decide

/-! ## Data model

MatchRec models the candidate dictionaries flowing out of
SupabaseService.match_assessments (supabase_service.py).  Optional fields
model dictionary keys that may be absent (dict.get returns None); in
particular duration_minutes is the key read by the post-retrieval duration
filter of routers/recommendations.py and is not present in the mock rows.
-/

structure MatchRec where
  id : String
  name : String
  url : Option String := none
  description : Option String := none
  test_types : List String := []
  job_levels : List String := []
  duration_text : String := ""
  duration_min_minutes : Option Nat := none
  duration_max_minutes : Option Nat := none
  duration_minutes : Option Nat := none
  is_untimed : Bool := false
  is_variable_duration : Bool := false
  remote_testing : Bool := false
  adaptive_irt : Bool := false
  languages : List String := []
  key_features : List String := []
  similarity : Rat := 0
  deriving DecidableEq

/-- AssessmentResponse, backend/models/assessment.py lines 60-67 together
with AssessmentBase; only the explanation display string is elided. -/
structure AssessmentResponse where
  id : String
  name : String
  url : Option String := none
  description : Option String := none
  similarity_score : Rat := 0
  relevance_score : Rat := 0
  remote_testing : Bool := false
  adaptive_irt : Bool := false
  test_types : List String := []
  job_levels : List String := []
  duration_text : String := ""
  duration_min_minutes : Option Nat := none
  duration_max_minutes : Option Nat := none
  is_untimed : Bool := false
  is_variable_duration : Bool := false
  languages : List String := []
  key_features : List String := []
  deriving DecidableEq

/-- RecommendationFilter, backend/models/recommendation.py lines 16-24. -/
structure RecommendationFilter where
  job_levels : Option (List String) := none
  test_types : Option (List String) := none
  languages : Option (List String) := none
  max_duration_minutes : Option Int := none
  duration_type : Option String := none
  min_similarity : Option Rat := none
  remote_testing : Option Bool := none
  deriving DecidableEq

/-- RecommendationRequest, backend/models/recommendation.py lines 26-36. -/
structure RecommendationRequest where
  query : String
  top_k : Nat := 5
  filters : Option RecommendationFilter := none
  deriving DecidableEq

/-- RecommendationResponse, backend/models/recommendation.py lines 38-44.
processing_time is wall-clock elapsed seconds and timestamp the wall-clock
construction instant (datetime.utcnow default). -/
structure RecommendationResponse where
  recommendations : List AssessmentResponse
  query_embedding : Option (List Rat) := none
  processing_time : Rat
  total_assessments : Nat
  timestamp : Rat
  deriving DecidableEq

/-- Python str.strip: drop leading and trailing whitespace. -/
def pyStrip (s : String) : String :=
  String.mk (((s.data.dropWhile Char.isWhitespace).reverse.dropWhile Char.isWhitespace).reverse)

/-- Pydantic validation of RecommendationRequest.query: Field min_length 3
on the raw string, then the query_not_empty validator strips it and rejects
blank strings, returning the stripped query
(backend/models/recommendation.py lines 26-36). -/
def validateQuery (query : String) : Option String :=
  if query.length < 3 then none
  else if pyStrip query = "" then none
  else some (pyStrip query)

/-! ## Mock catalog, supabase_service.py _get_mock_matches lines 662-831. -/

def baseAssessments : List MatchRec :=
  [ { id := "1", name := "Verbal Reasoning Assessment",
      description := some "Test for verbal reasoning skills and language comprehension. Evaluates ability to understand and analyze written information.",
      test_types := ["Verbal Reasoning", "Cognitive Ability"],
      job_levels := ["Professional", "Manager", "Entry Level"],
      duration_text := "30 minutes", duration_min_minutes := some 30,
      duration_max_minutes := some 30, remote_testing := true,
      languages := ["English", "French", "German"],
      key_features := ["Online", "Standardized", "Mobile Compatible"] },
    { id := "2", name := "Numerical Reasoning Assessment",
      description := some "Test for numerical reasoning skills and data interpretation. Measures ability to analyze numerical data and make logical decisions.",
      test_types := ["Numerical Reasoning", "Cognitive Ability"],
      job_levels := ["Professional", "Manager", "Executive"],
      duration_text := "40 minutes", duration_min_minutes := some 40,
      duration_max_minutes := some 40, remote_testing := true,
      languages := ["English", "Spanish", "French"],
      key_features := ["Online", "Standardized", "Calculator Provided"] },
    { id := "3", name := "Inductive Reasoning Assessment",
      description := some "Test for inductive reasoning skills and pattern recognition. Evaluates ability to identify patterns and apply logical thinking.",
      test_types := ["Inductive Reasoning", "Cognitive Ability"],
      job_levels := ["Professional", "Manager"],
      duration_text := "25 minutes", duration_min_minutes := some 25,
      duration_max_minutes := some 25, remote_testing := true,
      languages := ["English", "French", "Chinese"],
      key_features := ["Online", "Standardized", "Adaptive"] },
    { id := "4", name := "Personality Assessment",
      description := some "Comprehensive personality assessment that measures work-related personality traits and behavioral preferences.",
      test_types := ["Personality", "Behavioral"],
      job_levels := ["All Levels"],
      duration_text := "25 to 35 minutes", duration_min_minutes := some 25,
      duration_max_minutes := some 35, is_variable_duration := true,
      remote_testing := true,
      languages := ["English", "French", "German", "Spanish", "Chinese"],
      key_features := ["Online", "Normative", "GDPR Compliant"] },
    { id := "5", name := "Coding Skills Assessment",
      description := some "Practical coding assessment to evaluate software development skills and problem-solving abilities in real-world scenarios.",
      test_types := ["Technical", "Coding"],
      job_levels := ["Professional", "Entry Level"],
      duration_text := "60 minutes", duration_min_minutes := some 60,
      duration_max_minutes := some 60, remote_testing := true,
      languages := ["English"],
      key_features := ["Online", "Live Coding", "Multiple Languages"] },
    { id := "6", name := "Situational Judgment Test",
      description := some "Assesses decision-making and judgment in workplace scenarios. Evaluates how candidates approach real-world job situations.",
      test_types := ["Situational Judgment", "Behavioral"],
      job_levels := ["Manager", "Professional", "Entry Level"],
      duration_text := "30 minutes", duration_min_minutes := some 30,
      duration_max_minutes := some 30, remote_testing := true,
      languages := ["English", "Spanish", "French"],
      key_features := ["Online", "Scenario-based", "Video Elements"] },
    { id := "7", name := "Leadership Assessment",
      description := some "Evaluates leadership potential and competencies through a combination of cognitive and behavioral measures.",
      test_types := ["Leadership", "Behavioral", "Cognitive"],
      job_levels := ["Manager", "Executive"],
      duration_text := "45 minutes", duration_min_minutes := some 45,
      duration_max_minutes := some 45, remote_testing := true,
      languages := ["English", "French", "German"],
      key_features := ["Online", "Competency-based", "Benchmarking"] } ]

/-- The keyword table of _get_mock_matches lines 778-795. -/
def mockKeywords : List (String × List String) :=
  [ ("coding", ["Coding Skills Assessment"]),
    ("software", ["Coding Skills Assessment", "Inductive Reasoning Assessment"]),
    ("developer", ["Coding Skills Assessment", "Inductive Reasoning Assessment"]),
    ("programming", ["Coding Skills Assessment"]),
    ("personality", ["Personality Assessment"]),
    ("behavior", ["Personality Assessment", "Situational Judgment Test"]),
    ("leadership", ["Leadership Assessment", "Situational Judgment Test"]),
    ("manager", ["Leadership Assessment", "Numerical Reasoning Assessment"]),
    ("executive", ["Leadership Assessment", "Numerical Reasoning Assessment"]),
    ("entry", ["Verbal Reasoning Assessment", "Coding Skills Assessment"]),
    ("junior", ["Verbal Reasoning Assessment", "Coding Skills Assessment"]),
    ("technical", ["Coding Skills Assessment", "Numerical Reasoning Assessment"]),
    ("verbal", ["Verbal Reasoning Assessment"]),
    ("numerical", ["Numerical Reasoning Assessment"]),
    ("math", ["Numerical Reasoning Assessment"]),
    ("reasoning", ["Verbal Reasoning Assessment", "Numerical Reasoning Assessment", "Inductive Reasoning Assessment"]) ]

/-- assessment_scores of _get_mock_matches lines 797-803: one point per
keyword that occurs in the lowered query and lists the assessment name. -/
def keywordScore (qLower : String) (name : String) : Nat :=
  (mockKeywords.filter
    (fun kw => hasSub kw.1.data qLower.data && kw.2.contains name)).length

/-- Stable descending insertion used to model Python sorted with a key and
reverse=True: each element is placed after every already-placed element of
greater-or-equal score, so equal scores keep their original order. -/
def insertDesc (score : MatchRec → Nat) (x : MatchRec) : List MatchRec → List MatchRec
  | [] => [x]
  | y :: ys => if score x ≤ score y then y :: insertDesc score x ys else x :: y :: ys

def sortDescStable (score : MatchRec → Nat) (l : List MatchRec) : List MatchRec :=
  l.foldl (fun acc x => insertDesc score x acc) []

/-- Python max on two floats (the larger value). -/
def ratMax (a b : Rat) : Rat := if a ≤ b then b else a

/-- Python min on two floats (the smaller value). -/
def ratMin (a b : Rat) : Rat := if a ≤ b then a else b

/-- Similarity assigned positionally in the personalised branch, line 818:
max(0.6, min(0.98, 0.95 - i * 0.05)); the inner expression is written as the
exact fraction (19 - i)/20. -/
def simAtRank (i : Nat) : Rat :=
  ratMax (mkRat 6 10) (ratMin (mkRat 49 50) (mkRat (19 - (i : Int)) 20))

/-- Similarity assigned positionally in the default branch, line 829:
max(0.6, min(0.95, 0.92 - i * 0.03)); the inner expression is the exact
fraction (92 - 3i)/100. -/
def simAtRankDefault (i : Nat) : Rat :=
  ratMax (mkRat 6 10) (ratMin (mkRat 95 100) (mkRat (92 - 3 * (i : Int)) 100))

def defaultMockMatches : List MatchRec :=
  baseAssessments.enum.map (fun p => { p.2 with similarity := simAtRankDefault p.1 })

/-- _get_mock_matches lines 662-831.  A None or empty query takes the
default branch (if query: is falsy there); otherwise assessments are
stably sorted by descending keyword score of the lowered query and
similarities are assigned by final position. -/
def getMockMatches (query : Option String) : List MatchRec :=
  match query with
  | some q =>
    if q = "" then defaultMockMatches
    else
      let qLower := strLower q
      let sorted := sortDescStable (fun m => keywordScore qLower m.name) baseAssessments
      sorted.enum.map (fun p => { p.2 with similarity := simAtRank p.1 })
  | none => defaultMockMatches

example : (getMockMatches (some "anything")).map MatchRec.name =
    baseAssessments.map MatchRec.name := by decide
example : ((getMockMatches (some "anything")).map MatchRec.similarity).head? =
    some (mkRat 19 20) := by decide
example : (getMockMatches (some "software developer with coding skills")).head?.map MatchRec.name =
    some "Coding Skills Assessment" := by decide

/-! ## Catalog store, supabase_service.py match_assessments lines 515-579.

StoreState captures which branch of match_assessments runs: mockMode when
settings.USE_MOCK_DATA is set or the Supabase client is not ready (lines
528-536), realMode db when the pgvector RPC executed and returned the row
list db for the supplied threshold and count (lines 538-575).
-/

inductive StoreState where
  | mockMode : StoreState
  | realMode : List MatchRec → StoreState

/-- match_assessments.  Note that in mock mode the min_similarity and
match_count arguments are ignored entirely, and that in real mode an empty
RPC result falls back to the mock matches (line 570-572) instead of being
returned. -/
def match_assessments (st : StoreState) (embedding : Option (List Rat))
    (matchCount : Nat) (minSimilarity : Rat) (query : Option String) : List MatchRec :=
  match st with
  | .mockMode => getMockMatches query
  | .realMode db =>
    match embedding with
    | none => getMockMatches query
    | some emb =>
      if emb = [] then getMockMatches query
      else if db = [] then getMockMatches query
      else db

/-! ## Post-retrieval duration filter, routers/recommendations.py lines 113-139. -/

/-- The per-candidate predicate of the loop at lines 123-132: a candidate is
dropped iff its duration_minutes key is present and exceeds max_duration. -/
def durationPasses (maxDuration : Nat) (m : MatchRec) : Bool :=
  match m.duration_minutes with
  | some d => decide (d ≤ maxDuration)
  | none => true

/-- Lines 121-139: filter, but revert to the unfiltered list when the filter
removes every candidate. -/
def applyDurationFilter (ms : List MatchRec) (maxDuration : Nat) : List MatchRec :=
  let filtered := ms.filter (durationPasses maxDuration)
  if filtered = [] then ms else filtered

/-- Lines 115-118: the filter only runs when max_duration_minutes is an int
greater than zero (the merged-filters default is 0, which is skipped). -/
def durationFilterStep (ms : List MatchRec) (maxDuration : Option Int) : List MatchRec :=
  match maxDuration with
  | some md => if 0 < md then applyDurationFilter ms md.toNat else ms
  | none => ms

/-! ## LLM reranking, routers/recommendations.py rerank_recommendations
lines 187-260. -/

/-- The index filter of line 242: keep integer indices within range.
Python booleans pass isinstance int checks, so indices are modelled as Int;
non-integer entries of the raw LLM answer are dropped exactly like the
source drops them. -/
def validIndices (indices : List Int) (n : Nat) : List Int :=
  indices.filter (fun idx => decide (0 ≤ idx ∧ idx < (n : Int)))

/-- The fill loop of lines 250-254: append, in similarity order, candidates
whose id is not among the ids collected before the loop, while the list is
shorter than top_k.  The used_ids set is computed once and never extended,
exactly as in the source. -/
def fillFromMatches (ms : List MatchRec) (usedIds : List String)
    (topK : Nat) (recs : List MatchRec) : List MatchRec :=
  ms.foldl
    (fun acc m => if m.id ∉ usedIds ∧ acc.length < topK then acc ++ [m] else acc)
    recs

/-- rerank_recommendations, lines 187-260.  The llmAnswer argument is the
outcome of gemini_service.generate_recommendations: none models an
exception or a non-list response (both take the similarity-order fallback,
lines 237-239 and 257-260), some idxs a returned index list.  An empty list
is falsy in Python and also takes the fallback of line 237. -/
def rerank_recommendations (ms : List MatchRec) (llmAnswer : Option (List Int))
    (topK : Nat) : List MatchRec :=
  match llmAnswer with
  | none => ms.take topK
  | some idxs =>
    if idxs = [] then ms.take topK
    else
      let valid := validIndices idxs ms.length
      let recs := (valid.take topK).filterMap (fun i => ms.get? i.toNat)
      if recs.length < topK then
        fillFromMatches ms (recs.map MatchRec.id) topK recs
      else recs

/-- The reranking decision of get_recommendations lines 146-151: rerank iff
candidates remain and there are more of them than top_k or the
configuration flag forces reranking; otherwise take the top matches. -/
def routerSelect (ms : List MatchRec) (topK : Nat) (alwaysRerank : Bool)
    (llmAnswer : Option (List Int)) : List MatchRec :=
  if ms ≠ [] ∧ (topK < ms.length ∨ alwaysRerank = true) then
    rerank_recommendations ms llmAnswer topK
  else ms.take topK

/-! ## RAG pipeline, services/rag_pipeline.py process_query lines 17-160. -/

/-- Step 5 of process_query (lines 107-149): one AssessmentResponse per
recommended index, skipping non-integer and out-of-range indices, with no
truncation to top_k and no deduplication.  Both score fields are set to the
similarity of the underlying match (lines 134-135). -/
def assessmentFromMatch (m : MatchRec) : AssessmentResponse :=
  { id := m.id, name := m.name, url := m.url, description := m.description,
    similarity_score := m.similarity, relevance_score := m.similarity,
    remote_testing := m.remote_testing, adaptive_irt := m.adaptive_irt,
    test_types := m.test_types, job_levels := m.job_levels,
    duration_text := m.duration_text,
    duration_min_minutes := m.duration_min_minutes,
    duration_max_minutes := m.duration_max_minutes,
    is_untimed := m.is_untimed, is_variable_duration := m.is_variable_duration,
    languages := m.languages, key_features := m.key_features }

def processQueryItems (ms : List MatchRec) (indices : List Int) : List AssessmentResponse :=
  indices.filterMap fun idx =>
    if h : 0 ≤ idx ∧ idx.toNat < ms.length then
      some (assessmentFromMatch (ms.get ⟨idx.toNat, h.2⟩))
    else none

/-- Wall-clock readings observed by one run: elapsed is the difference
time.time() - start_time and now the construction instant of the response
(datetime.utcnow). -/
structure PipelineClock where
  elapsed : Rat
  now : Rat
  deriving DecidableEq

/-- The effective retrieval threshold of process_query line 65: the filter
value when it is set and truthy (so an explicit 0.0 falls back to the
default), else MIN_SIMILARITY_THRESHOLD. -/
def effectiveMinSimilarity (req : RecommendationRequest) : Rat :=
  match req.filters with
  | some f =>
    match f.min_similarity with
    | some s => if s ≠ 0 then s else MIN_SIMILARITY_THRESHOLD
    | none => MIN_SIMILARITY_THRESHOLD
  | none => MIN_SIMILARITY_THRESHOLD

/-- process_query steps 3-5 (lines 69-160) given the retrieved matches and
the index list produced by the reranking LLM: the empty-matches early
return of lines 81-88, else the item construction of step 5. -/
def processQueryResponse (req : RecommendationRequest) (queryEmbedding : List Rat)
    (ms : List MatchRec) (indices : List Int) (clock : PipelineClock) :
    RecommendationResponse :=
  if ms = [] then
    { recommendations := [], query_embedding := some queryEmbedding,
      processing_time := clock.elapsed, total_assessments := 0,
      timestamp := clock.now }
  else
    { recommendations := processQueryItems ms indices,
      query_embedding := some queryEmbedding,
      processing_time := clock.elapsed,
      total_assessments := ms.length,
      timestamp := clock.now }

/-! ## Mock pipeline run, gemini_service.py fallbacks + process_query.

_get_mock_embedding (lines 89-105) seeds the PRNG with hash(text) mod 10000
and draws a 768-dimensional vector; the salted string hash and the Mersenne
Twister are modelled as explicit function parameters pyHash and prng, so a
fixed process corresponds to a fixed pair of functions. -/

def getMockEmbedding (pyHash : String → Nat) (prng : Nat → List Rat)
    (text : String) : List Rat :=
  prng (pyHash text % 10000)

/-- _get_mock_recommendations, gemini_service.py lines 158-187: at most
min(len docs, top_k) indices, obtained by a seeded shuffle of range(n). -/
def getMockRecommendationIndices (pyHash : String → Nat)
    (shuffle : Nat → List Nat → List Nat) (query : String) (nDocs topK : Nat) : List Nat :=
  let maxIdx := min nDocs topK
  if maxIdx = 0 then []
  else (shuffle (pyHash query % 10000) (List.range nDocs)).take maxIdx

/-- One full mock-mode run of RAGPipeline.process_query: mock embedding,
mock matches, mock reranking indices, response assembly, under the given
process parameters and wall-clock readings. -/
def runMockPipeline (pyHash : String → Nat) (shuffle : Nat → List Nat → List Nat)
    (prng : Nat → List Rat) (req : RecommendationRequest) (clock : PipelineClock) :
    RecommendationResponse :=
  let emb := getMockEmbedding pyHash prng req.query
  let ms := match_assessments .mockMode (some emb)
    (req.top_k * RETRIEVAL_MULTIPLIER) (effectiveMinSimilarity req) (some req.query)
  let idxs := getMockRecommendationIndices pyHash shuffle req.query ms.length req.top_k
  processQueryResponse req emb ms (idxs.map Int.ofNat) clock

/-! ## The /recommend endpoint, backend/main.py standard_recommend lines
92-154, with the response models of backend/models/api_config.py. -/

structure StandardAssessmentRecommendation where
  url : String
  adaptive_support : String
  description : String
  duration : Nat
  remote_support : String
  test_type : List String
  deriving DecidableEq

/-- Duration integer derivation, main.py lines 124-131: max minutes, else
min minutes, else a pure-digit duration_text, else 0. -/
def durationInteger (a : AssessmentResponse) : Nat :=
  match a.duration_max_minutes with
  | some d => d
  | none =>
    match a.duration_min_minutes with
    | some d => d
    | none =>
      if a.duration_text ≠ "" ∧ a.duration_text.all Char.isDigit then
        charsToNat a.duration_text.data
      else 0

/-- URL formatting, main.py lines 133-139: prepend the SHL host to truthy
relative urls, and fall back to the bare host for None or empty. -/
def formatUrl (url : Option String) : String :=
  let u := url.getD ""
  let u :=
    if u ≠ "" ∧ ¬ ("http://".isPrefixOf u ∨ "https://".isPrefixOf u) then
      "https://www.shl.com" ++ u
    else u
  if u = "" then "https://www.shl.com" else u

/-- The per-assessment transformation of main.py lines 123-146. -/
def toStandardAssessment (a : AssessmentResponse) : StandardAssessmentRecommendation :=
  { url := formatUrl a.url,
    adaptive_support := if a.adaptive_irt then "Yes" else "No",
    description :=
      (match a.description with
       | some d => if d = "" then "No description available" else d
       | none => "No description available"),
    duration := durationInteger a,
    remote_support := if a.remote_testing then "Yes" else "No",
    test_type := a.test_types }

/-- Outcome of the HTTP endpoint: a JSON body, or an exception escaping the
handler (which FastAPI surfaces as an HTTP error response). -/
inductive EndpointOutcome where
  | body : List StandardAssessmentRecommendation → EndpointOutcome
  | httpError : EndpointOutcome
  deriving DecidableEq

/-- standard_recommend, main.py lines 92-154.  The innerResult argument is
the outcome of the awaited recommendations.get_recommendations call
together with the response transformation, which sit inside the try block
of lines 116-150: none models any exception raised there (every such
exception is converted to the empty-list body at lines 151-154).  The
RecommendationRequest construction at line 113 sits OUTSIDE that try block,
so a pydantic validation failure escapes the handler. -/
def standard_recommend (query : String)
    (innerResult : Option (List AssessmentResponse)) : EndpointOutcome :=
  if query = "" then .body []
  else
    match validateQuery query with
    | none => .httpError
    | some _ =>
      match innerResult with
      | none => .body []
      | some recs => .body (recs.map toStandardAssessment)

/-! # Theorems -/

/-! Sample records used in concrete instantiations. -/

def mA : MatchRec := { id := "a1", name := "Alpha Assessment", similarity := mkRat 9 10 }

def mB : MatchRec := { id := "b2", name := "Beta Assessment", similarity := mkRat 8 10 }

def untimedMatch : MatchRec :=
  { id := "u1", name := "Untimed Sample", is_untimed := true, duration_minutes := none }

def slowMatch : MatchRec :=
  { id := "s1", name := "Slow Sample", duration_minutes := some 50 }

/-- Claim C1, counterexample: the body "ab" (a query of length 2, hence
shorter than 3 characters after trimming) makes the RecommendationRequest
construction at main.py line 113 raise outside the try block, so the
endpoint yields an HTTP error instead of a well-formed empty-list
response. -/
theorem c1_counterexample :
    (pyStrip "ab").length < 3 ∧
    standard_recommend "ab" (some []) = EndpointOutcome.httpError := by
  exact ⟨by decide, by decide⟩

/-- Claim C1 (amended): whenever the request body passes pydantic request
validation (the query is empty, or it has at least 3 characters and a
non-blank strip), the endpoint never throws: any failure of the inner
processing (filter extraction, embedding, retrieval, reranking, response
transformation) yields the well-formed response with an empty
recommended_assessments list.  A query failing validation (fewer than 3
characters, or blank after stripping) instead escapes as an HTTP error. -/
theorem c1_recommend_error_containment (query : String)
    (innerResult : Option (List AssessmentResponse))
    (h : query = "" ∨ (validateQuery query).isSome) :
    standard_recommend query innerResult ≠ EndpointOutcome.httpError ∧
    (innerResult = none → standard_recommend query innerResult = EndpointOutcome.body []) := by
  unfold standard_recommend
  rcases h with h | h
  · simp [h]
  · by_cases hq : query = ""
    · simp [hq]
    · cases hv : validateQuery query with
      | none => rw [hv] at h; simp at h
      | some q =>
        cases innerResult with
        | none => simp [hq, hv]
        | some recs => simp [hq, hv]

/-- Claim C1, witness. -/
theorem c1_witness :
    standard_recommend "abc" none ≠ EndpointOutcome.httpError ∧
    ((none : Option (List AssessmentResponse)) = none →
      standard_recommend "abc" none = EndpointOutcome.body []) :=
  c1_recommend_error_containment "abc" none (Or.inr (by decide))

/-- Claim C6, counterexample: an untimed candidate (is_untimed true and no
duration_minutes value) survives the post-retrieval duration filter of
get_recommendations with an active max filter of 10 minutes, so it is not
excluded. -/
theorem c6_counterexample :
    untimedMatch.is_untimed = true ∧
    untimedMatch.duration_minutes = none ∧
    durationFilterStep [untimedMatch] (some 10) = [untimedMatch] := by
  exact ⟨rfl, rfl, by decide⟩

/-- Claim C6 (amended): the post-retrieval duration filter of
get_recommendations keys only on the duration_minutes field and keeps every
candidate whose value is absent; untimed assessments carry no
duration_minutes, so they PASS every active max-duration filter instead of
failing it. -/
theorem c6_untimed_passes (ms : List MatchRec) (md : Nat) (m : MatchRec)
    (hm : m ∈ ms) (hd : m.duration_minutes = none) :
    m ∈ applyDurationFilter ms md := by
  have hp : durationPasses md m = true := by unfold durationPasses; rw [hd]
  have hmem : m ∈ ms.filter (durationPasses md) := List.mem_filter.mpr ⟨hm, hp⟩
  unfold applyDurationFilter
  by_cases hnil : ms.filter (durationPasses md) = [] <;> simp only [hnil, if_true, if_false]
  · simpa [hnil] using hm
  · simpa [hnil] using hmem

/-- Claim C6, witness. -/
theorem c6_witness : untimedMatch ∈ applyDurationFilter [untimedMatch] 10 :=
  c6_untimed_passes [untimedMatch] 10 untimedMatch (by decide) rfl

/-- Claim C7, counterexample: with a caller-supplied max_duration_minutes
of 10, a candidate of duration 50 minutes is the only match; the filter
eliminates it, and the code of recommendations.py lines 134-139 then
reverts to the unfiltered list, so the candidate violating the
caller-supplied filter appears in the returned results. -/
theorem c7_counterexample :
    slowMatch.duration_minutes = some 50 ∧
    durationFilterStep [slowMatch] (some 10) = [slowMatch] := by
  exact ⟨rfl, by decide⟩

/-- Claim C7 (amended): the post-retrieval duration filter keeps exactly the
passing candidates when at least one passes, but when it eliminates every
candidate it reverts to the unfiltered list wholesale, regardless of
whether the max-duration filter was caller-supplied or LLM-inferred; no
inferred-only relaxation exists. -/
theorem c7_filter_fallback (ms : List MatchRec) (md : Nat) :
    (ms.filter (durationPasses md) ≠ [] →
      applyDurationFilter ms md = ms.filter (durationPasses md)) ∧
    (ms.filter (durationPasses md) = [] → applyDurationFilter ms md = ms) := by
  unfold applyDurationFilter
  constructor <;> intro h <;> simp [h]

/-- Claim C7, witness. -/
theorem c7_witness :
    applyDurationFilter [slowMatch] 60 = [slowMatch].filter (durationPasses 60) :=
  (c7_filter_fallback [slowMatch] 60).1 (by decide)

/-- Claim C8, counterexample: the parser maps "max 20" to min=20 (not None)
and "15 to 35" to (15, 15, false, false) rather than (15, 35, false, true);
both patterns fall through to the numbers-only fallback because the range
and single-value regexes require an explicit unit. -/
theorem c8_counterexample :
    parse_duration_text "max 20" ≠ ⟨none, some 20, false, false⟩ ∧
    parse_duration_text "15 to 35" ≠ ⟨some 15, some 35, false, true⟩ := by
  exact ⟨by decide, by decide⟩

/-- Claim C8 (amended): the parser maps "max 20" to (20, 20, false, false)
and "15 to 35" to (15, 15, false, false) via the extract-first-number
fallback, and maps "Untimed" to (None, None, true, false), "TBC" to
(None, None, false, true) and "42" to (42, 42, false, false) as the claim
states. -/
theorem c8_parser_values :
    parse_duration_text "max 20" = ⟨some 20, some 20, false, false⟩ ∧
    parse_duration_text "15 to 35" = ⟨some 15, some 15, false, false⟩ ∧
    parse_duration_text "Untimed" = ⟨none, none, true, false⟩ ∧
    parse_duration_text "TBC" = ⟨none, none, false, true⟩ ∧
    parse_duration_text "42" = ⟨some 42, some 42, false, false⟩ := by
  exact ⟨by decide, by decide, by decide, by decide, by decide⟩

/-! Length bounds for the router selection. -/

theorem fillFromMatches_length_le (topK : Nat) (usedIds : List String) :
    ∀ (ms recs : List MatchRec), recs.length ≤ topK →
      (fillFromMatches ms usedIds topK recs).length ≤ topK := by
  intro ms
  induction ms with
  | nil => intro recs h; simpa [fillFromMatches] using h
  | cons m t ih =>
    intro recs h
    rw [show fillFromMatches (m :: t) usedIds topK recs =
        fillFromMatches t usedIds topK
          (if m.id ∉ usedIds ∧ recs.length < topK then recs ++ [m] else recs) from rfl]
    by_cases hc : m.id ∉ usedIds ∧ recs.length < topK
    · rw [if_pos hc]
      exact ih _ (by simpa using hc.2)
    · rw [if_neg hc]
      exact ih _ h

theorem rerank_length_le (ms : List MatchRec) (llmAnswer : Option (List Int)) (topK : Nat) :
    (rerank_recommendations ms llmAnswer topK).length ≤ topK := by
  unfold rerank_recommendations
  cases llmAnswer with
  | none => simpa using List.length_take_le topK ms
  | some idxs =>
    by_cases hne : idxs = []
    · simpa [hne] using List.length_take_le topK ms
    · simp only [hne, if_false]
      set valid := validIndices idxs ms.length with hvalid
      set recs := (valid.take topK).filterMap (fun i => ms.get? i.toNat) with hrecs
      have hlen : recs.length ≤ topK := by
        calc recs.length ≤ (valid.take topK).length := by
              rw [hrecs]; exact List.length_filterMap_le _ _
          _ ≤ topK := List.length_take_le _ _
      by_cases hlt : recs.length < topK
      · simpa [hlt] using fillFromMatches_length_le topK (recs.map MatchRec.id) ms recs hlen
      · simpa [hlt] using hlen

/-- Claim C2, counterexample: with top_k = 1 and the seven mock candidates,
an LLM index list [0, 1] (longer than top_k, all indices valid) makes
RAGPipeline.process_query return 2 recommendations, because step 5 builds
one item per valid index and never truncates to top_k. -/
theorem c2_counterexample :
    ({ query := "anything", top_k := 1 } : RecommendationRequest).top_k = 1 ∧
    (processQueryResponse { query := "anything", top_k := 1 } []
        (getMockMatches (some "anything")) [0, 1] ⟨0, 0⟩).recommendations.length = 2 := by
  exact ⟨rfl, by decide⟩

/-- Claim C2 (amended): the router path (get_recommendations together with
rerank_recommendations) returns at most top_k items for every candidate
list and every LLM answer; but RAGPipeline.process_query builds one item
per valid returned index without truncation, so its output length is
bounded only by the length of the returned index list, which may exceed
top_k. -/
theorem c2_topk_bound (ms : List MatchRec) (topK : Nat) (alwaysRerank : Bool)
    (llmAnswer : Option (List Int)) (indices : List Int) :
    (routerSelect ms topK alwaysRerank llmAnswer).length ≤ topK ∧
    (processQueryItems ms indices).length ≤ indices.length := by
  constructor
  · unfold routerSelect
    split
    · exact rerank_length_le ms llmAnswer topK
    · exact List.length_take_le _ _
  · exact List.length_filterMap_le _ _

/-- Claim C5, counterexample: when the pgvector search returns no rows, the
store does not return that empty list as the result: it substitutes the
seven mock matches (supabase_service.py lines 570-572). -/
theorem c5_counterexample :
    match_assessments (.realMode []) (some [1]) 15 MIN_SIMILARITY_THRESHOLD
        (some "anything") ≠ [] ∧
    (match_assessments (.realMode []) (some [1]) 15 MIN_SIMILARITY_THRESHOLD
        (some "anything")).length = 7 := by
  exact ⟨by decide, by decide⟩

/-- Claim C5 (amended): when the vector search yields no candidate, the
store falls back to the mock matches instead of returning the empty list;
the pipeline side of the claim does hold: if match_assessments did yield an
empty candidate list, process_query returns a successful empty response
with total_assessments 0. -/
theorem c5_empty_fallback (db : List MatchRec) (emb : List Rat) (q : Option String)
    (mc : Nat) (msim : Rat) (hemb : emb ≠ []) (hdb : db = [])
    (req : RecommendationRequest) (e : List Rat) (idxs : List Int)
    (clock : PipelineClock) :
    match_assessments (.realMode db) (some emb) mc msim q = getMockMatches q ∧
    (processQueryResponse req e [] idxs clock).recommendations = [] ∧
    (processQueryResponse req e [] idxs clock).total_assessments = 0 := by
  subst hdb
  refine ⟨?_, by simp [processQueryResponse], by simp [processQueryResponse]⟩
  simp [match_assessments, hemb]

/-- Claim C5, witness. -/
theorem c5_witness :
    match_assessments (.realMode []) (some [1]) 15 (mkRat 6 10) (some "q") =
      getMockMatches (some "q") ∧
    (processQueryResponse { query := "q" } [] [] [] ⟨0, 0⟩).recommendations = [] ∧
    (processQueryResponse { query := "q" } [] [] [] ⟨0, 0⟩).total_assessments = 0 :=
  c5_empty_fallback [] [1] (some "q") 15 (mkRat 6 10) (by decide) rfl
    { query := "q" } [] [] ⟨0, 0⟩

/-- Claim C9, counterexample: two runs of the mock pipeline on the same
request with identical process parameters but different wall-clock readings
produce different responses (the processing_time and timestamp fields are
part of the serialized output), so outputs are not byte-identical across
runs. -/
theorem c9_counterexample :
    runMockPipeline (fun _ => 0) (fun _ l => l) (fun _ => [])
        { query := "anything" } ⟨0, 0⟩ ≠
    runMockPipeline (fun _ => 0) (fun _ l => l) (fun _ => [])
        { query := "anything" } ⟨0, 1⟩ := by
  decide

/-- Claim C9 (amended): for a fixed process (fixed string-hash salt, PRNG
and shuffle, as captured by the function parameters) the mock pipeline is
deterministic in everything except the wall-clock fields: the
recommendations list, the total_assessments count and the query embedding
are identical across runs regardless of the clock; byte-identical whole
responses fail only because processing_time and timestamp vary between
runs. -/
theorem processQueryResponse_clock_inv (req : RecommendationRequest) (e : List Rat)
    (ms : List MatchRec) (idxs : List Int) (c1 c2 : PipelineClock) :
    (processQueryResponse req e ms idxs c1).recommendations =
      (processQueryResponse req e ms idxs c2).recommendations ∧
    (processQueryResponse req e ms idxs c1).total_assessments =
      (processQueryResponse req e ms idxs c2).total_assessments ∧
    (processQueryResponse req e ms idxs c1).query_embedding =
      (processQueryResponse req e ms idxs c2).query_embedding := by
  unfold processQueryResponse
  by_cases h : ms = [] <;> simp [h]

theorem c9_mock_determinism (pyHash : String → Nat) (shuffle : Nat → List Nat → List Nat)
    (prng : Nat → List Rat) (req : RecommendationRequest) (c1 c2 : PipelineClock) :
    (runMockPipeline pyHash shuffle prng req c1).recommendations =
      (runMockPipeline pyHash shuffle prng req c2).recommendations ∧
    (runMockPipeline pyHash shuffle prng req c1).total_assessments =
      (runMockPipeline pyHash shuffle prng req c2).total_assessments ∧
    (runMockPipeline pyHash shuffle prng req c1).query_embedding =
      (runMockPipeline pyHash shuffle prng req c2).query_embedding :=
  processQueryResponse_clock_inv req _ _ _ c1 c2

/-- Claim C10: every item built by process_query step 5 has
relevance_score equal to similarity_score, and both equal the retrieval
similarity of the underlying match; the reranking LLM contributes no
independent relevance score. -/
theorem c10_relevance_eq_similarity (ms : List MatchRec) (indices : List Int)
    (a : AssessmentResponse) (ha : a ∈ processQueryItems ms indices) :
    a.relevance_score = a.similarity_score ∧
    ∃ m ∈ ms, a.similarity_score = m.similarity := by
  unfold processQueryItems at ha
  rw [List.mem_filterMap] at ha
  obtain ⟨idx, _, hsome⟩ := ha
  split at hsome
  · next h =>
    have ha' : assessmentFromMatch (ms.get ⟨idx.toNat, h.2⟩) = a := Option.some.inj hsome
    subst ha'
    exact ⟨rfl, ms.get ⟨idx.toNat, h.2⟩, List.get_mem ms idx.toNat h.2, rfl⟩
  · cases hsome

/-- Claim C10, witness. -/
theorem c10_witness :
    (assessmentFromMatch mA).relevance_score = (assessmentFromMatch mA).similarity_score ∧
    ∃ m ∈ [mA], (assessmentFromMatch mA).similarity_score = m.similarity :=
  c10_relevance_eq_similarity [mA] [0] (assessmentFromMatch mA) (by decide)

/-! Distinctness machinery for the rerank path. -/

/-- Two positions holding candidates with equal ids coincide when the
candidate ids are duplicate-free. -/
theorem get?_id_inj (ms : List MatchRec) (hms : (ms.map MatchRec.id).Nodup)
    {i j : Nat} {a b : MatchRec} (ha : ms.get? i = some a) (hb : ms.get? j = some b)
    (hab : a.id = b.id) : i = j := by
  have hia : (ms.map MatchRec.id).get? i = some a.id := by
    rw [List.get?_map, ha]; rfl
  have hjb : (ms.map MatchRec.id).get? j = some b.id := by
    rw [List.get?_map, hb]; rfl
  have hi : i < (ms.map MatchRec.id).length := (List.get?_eq_some.mp hia).1
  exact List.get?_inj hi hms (by rw [hia, hjb, hab])

/-- Ids of the candidates selected by a duplicate-free list of non-negative
indices are duplicate-free. -/
theorem nodup_ids_filterMap_get (ms : List MatchRec)
    (hms : (ms.map MatchRec.id).Nodup) :
    ∀ (l : List Int), l.Nodup → (∀ i ∈ l, 0 ≤ i) →
      ((l.filterMap (fun i => ms.get? i.toNat)).map MatchRec.id).Nodup := by
  intro l
  induction l with
  | nil => intro _ _; simp
  | cons i t ih =>
    intro hnd hpos
    have hndt := (List.nodup_cons.mp hnd).2
    have hit : i ∉ t := (List.nodup_cons.mp hnd).1
    have hpt : ∀ j ∈ t, 0 ≤ j := fun j hj => hpos j (List.mem_cons_of_mem i hj)
    cases hget : ms.get? i.toNat with
    | none =>
      rw [List.filterMap_cons, hget]
      exact ih hndt hpt
    | some a =>
      rw [List.filterMap_cons, hget]
      show ((a :: t.filterMap fun j => ms.get? j.toNat).map MatchRec.id).Nodup
      rw [List.map_cons, List.nodup_cons]
      refine ⟨?_, ih hndt hpt⟩
      intro hmem
      rw [List.mem_map] at hmem
      obtain ⟨b, hbmem, hba⟩ := hmem
      rw [List.mem_filterMap] at hbmem
      obtain ⟨j, hjt, hjget⟩ := hbmem
      have htn : i.toNat = j.toNat := get?_id_inj ms hms hget hjget hba.symm
      have hij : i = j := by
        have h0i := hpos i (List.mem_cons_self i t)
        have h0j := hpt j hjt
        omega
      exact hit (hij ▸ hjt)

/-- The fill loop preserves duplicate-freeness of ids, provided every id
already collected is either recorded in usedIds or absent from the
candidate list being walked. -/
theorem fillFromMatches_nodup (topK : Nat) (usedIds : List String) :
    ∀ (ms recs : List MatchRec),
      (recs.map MatchRec.id).Nodup →
      (ms.map MatchRec.id).Nodup →
      (∀ r ∈ recs, r.id ∈ usedIds ∨ r.id ∉ ms.map MatchRec.id) →
      ((fillFromMatches ms usedIds topK recs).map MatchRec.id).Nodup := by
  intro ms
  induction ms with
  | nil => intro recs h _ _; simpa [fillFromMatches] using h
  | cons m t ih =>
    intro recs hrec hms hinv
    rw [show fillFromMatches (m :: t) usedIds topK recs =
        fillFromMatches t usedIds topK
          (if m.id ∉ usedIds ∧ recs.length < topK then recs ++ [m] else recs) from rfl]
    have hmst : (t.map MatchRec.id).Nodup := (List.nodup_cons.mp (by simpa using hms)).2
    have hmnot : m.id ∉ t.map MatchRec.id := (List.nodup_cons.mp (by simpa using hms)).1
    by_cases hc : m.id ∉ usedIds ∧ recs.length < topK
    · rw [if_pos hc]
      refine ih _ ?_ hmst ?_
      · rw [List.map_append]
        refine List.Nodup.append hrec (List.nodup_singleton _) ?_
        intro x hx hy
        have hxm : x = m.id := by simpa using hy
        subst hxm
        rw [List.mem_map] at hx
        obtain ⟨r, hrmem, hrid⟩ := hx
        rcases hinv r hrmem with h | h
        · exact hc.1 (hrid ▸ h)
        · exact h (hrid ▸ List.mem_map_of_mem MatchRec.id (List.mem_cons_self m t))
      · intro r hr
        rcases List.mem_append.mp hr with hr | hr
        · rcases hinv r hr with h | h
          · exact Or.inl h
          · right
            intro hmem
            exact h (by simpa using Or.inr hmem)
        · have hrm : r = m := by simpa using hr
          subst hrm
          exact Or.inr hmnot
    · rw [if_neg hc]
      refine ih _ hrec hmst ?_
      intro r hr
      rcases hinv r hr with h | h
      · exact Or.inl h
      · right
        intro hmem
        exact h (by simpa using Or.inr hmem)

/-- Claim C3, counterexample: the LLM answer [0, 0] (a duplicated index)
with two distinct candidates and top_k 2 yields the first candidate twice:
the id filter at recommendations.py line 242 checks range only, not
duplication, so duplicated indices each contribute an occurrence. -/
theorem c3_counterexample :
    (rerank_recommendations [mA, mB] (some [0, 0]) 2).map MatchRec.id = ["a1", "a1"] ∧
    ¬ ((rerank_recommendations [mA, mB] (some [0, 0]) 2).map MatchRec.id).Nodup := by
  exact ⟨by decide, by decide⟩

/-- Claim C3 (amended): out-of-range indices are discarded, but a
duplicated index contributes one occurrence per appearance (there is no
keep-first-occurrence deduplication); the returned items are pairwise
distinct by id whenever the LLM index list itself is duplicate-free and the
candidate ids are pairwise distinct. -/
theorem c3_rerank_nodup (ms : List MatchRec) (idxs : List Int) (topK : Nat)
    (hms : (ms.map MatchRec.id).Nodup) (hidx : idxs.Nodup) :
    ((rerank_recommendations ms (some idxs) topK).map MatchRec.id).Nodup := by
  unfold rerank_recommendations
  by_cases hne : idxs = []
  · simp only [hne, if_true, if_pos]
    rw [List.map_take]
    exact (List.take_sublist _ _).nodup hms
  · simp only [hne, if_false]
    have hvnd : (validIndices idxs ms.length).Nodup := hidx.filter _
    have htnd : ((validIndices idxs ms.length).take topK).Nodup :=
      (List.take_sublist _ _).nodup hvnd
    have hpos : ∀ i ∈ (validIndices idxs ms.length).take topK, 0 ≤ i := by
      intro i hi
      have hmem := List.mem_of_mem_take hi
      unfold validIndices at hmem
      have := List.mem_filter.mp hmem
      exact (of_decide_eq_true this.2).1
    have hrnd :
        ((((validIndices idxs ms.length).take topK).filterMap
          (fun i => ms.get? i.toNat)).map MatchRec.id).Nodup :=
      nodup_ids_filterMap_get ms hms _ htnd hpos
    by_cases hlt :
        (((validIndices idxs ms.length).take topK).filterMap
          (fun i => ms.get? i.toNat)).length < topK
    · rw [if_pos hlt]
      refine fillFromMatches_nodup topK _ ms _ hrnd hms ?_
      intro r hr
      exact Or.inl (List.mem_map_of_mem MatchRec.id hr)
    · rw [if_neg hlt]
      exact hrnd

/-- Claim C3, witness. -/
theorem c3_witness :
    ((rerank_recommendations [mA, mB] (some [1, 0]) 2).map MatchRec.id).Nodup :=
  c3_rerank_nodup [mA, mB] [1, 0] 2 (by decide) (by decide)

/-! The similarity floor of the mock matcher. -/

theorem le_ratMax_left (a b : Rat) : a ≤ ratMax a b := by
  unfold ratMax
  split
  · assumption
  · exact le_refl a

/-- Claim C4, counterexample: with a caller min_similarity of 0.99, the
effective threshold is 0.99, yet in mock mode match_assessments ignores the
threshold argument entirely: it returns all seven mock candidates, every
one of which carries a similarity below 0.99, and process_query then emits
items whose similarity_score (0.95 for the top item) is below the
requested floor. -/
theorem c4_counterexample :
    effectiveMinSimilarity
      { query := "anything", top_k := 5,
        filters := some { min_similarity := some (mkRat 99 100) } } = mkRat 99 100 ∧
    (match_assessments .mockMode (some [1]) (5 * RETRIEVAL_MULTIPLIER) (mkRat 99 100)
        (some "anything")).length = 7 ∧
    ((match_assessments .mockMode (some [1]) (5 * RETRIEVAL_MULTIPLIER) (mkRat 99 100)
        (some "anything")).map MatchRec.similarity).all
      (fun s => decide (s < mkRat 99 100)) = true ∧
    ((processQueryItems (match_assessments .mockMode (some [1]) (5 * RETRIEVAL_MULTIPLIER)
        (mkRat 99 100) (some "anything")) [0]).map
      AssessmentResponse.similarity_score) = [mkRat 19 20] := by
  exact ⟨by decide, by decide, by decide, by decide⟩

/-- Claim C4 (amended): every candidate produced by the mock matcher
carries a similarity of at least the configured default floor
MIN_SIMILARITY_THRESHOLD = 0.6 (the mock clamps its made-up scores at 0.6),
but a caller-supplied min_similarity is not enforced by the mock path, so a
floor above 0.6 (for example 0.99) can be violated by every returned
item. -/
theorem c4_mock_similarity_floor (query : Option String) (m : MatchRec)
    (hm : m ∈ getMockMatches query) :
    MIN_SIMILARITY_THRESHOLD ≤ m.similarity := by
  have hsim : ∃ i : Nat, m.similarity = simAtRank i ∨ m.similarity = simAtRankDefault i := by
    cases query with
    | none =>
      have hm' : m ∈ baseAssessments.enum.map
          (fun p => { p.2 with similarity := simAtRankDefault p.1 }) := hm
      rw [List.mem_map] at hm'
      obtain ⟨p, _, hp⟩ := hm'
      refine ⟨p.1, Or.inr ?_⟩
      rw [← hp]
    | some q =>
      have hm' : m ∈ (if q = "" then defaultMockMatches
          else (sortDescStable (fun x => keywordScore (strLower q) x.name)
              baseAssessments).enum.map
            (fun p => { p.2 with similarity := simAtRank p.1 })) := hm
      by_cases hq : q = ""
      · rw [if_pos hq] at hm'
        have hm2 : m ∈ baseAssessments.enum.map
            (fun p => { p.2 with similarity := simAtRankDefault p.1 }) := hm'
        rw [List.mem_map] at hm2
        obtain ⟨p, _, hp⟩ := hm2
        refine ⟨p.1, Or.inr ?_⟩
        rw [← hp]
      · rw [if_neg hq] at hm'
        rw [List.mem_map] at hm'
        obtain ⟨p, _, hp⟩ := hm'
        refine ⟨p.1, Or.inl ?_⟩
        rw [← hp]
  obtain ⟨i, h | h⟩ := hsim
  · rw [h]
    unfold MIN_SIMILARITY_THRESHOLD simAtRank
    exact le_ratMax_left _ _
  · rw [h]
    unfold MIN_SIMILARITY_THRESHOLD simAtRankDefault
    exact le_ratMax_left _ _

/-- The head of the personalised mock matches for the query "anything". -/
def mockHeadMatch : MatchRec :=
  { id := "1", name := "Verbal Reasoning Assessment",
    description := some "Test for verbal reasoning skills and language comprehension. Evaluates ability to understand and analyze written information.",
    test_types := ["Verbal Reasoning", "Cognitive Ability"],
    job_levels := ["Professional", "Manager", "Entry Level"],
    duration_text := "30 minutes", duration_min_minutes := some 30,
    duration_max_minutes := some 30, remote_testing := true,
    languages := ["English", "French", "German"],
    key_features := ["Online", "Standardized", "Mobile Compatible"],
    similarity := mkRat 19 20 }

/-- Claim C4, witness. -/
theorem c4_witness : MIN_SIMILARITY_THRESHOLD ≤ mockHeadMatch.similarity :=
  c4_mock_similarity_floor (some "anything") mockHeadMatch (by decide)
